import Mathlib

/-!
Shallow embedding of the add-friend round engine of the Alpenhorn client
(`addfriend.go`), together with theorems checking the natural-language
specification against it.

Cryptographic primitives (IBE, BLS, ed25519, siphash, NaCl boxes) and
network effects (PKG extraction, CDN fetches, persistence) are modelled
as oracle functions collected in an `Env` record; the control flow of the
client is translated function by function from the source.  Usernames are
`String`s, keys, signatures and ciphertext tokens are `Nat`s, and byte
buffers are `List Nat`.  Go pointer identity of queued requests is
modelled by a numeric `id` field.  Go `panic` is modelled by the
`Outcome` type.
-/

/-- A user identity, as produced by `pkg.ValidUsernameToIdentity`. -/
abbrev Identity := String

/-- Result of `pkg.Client.CheckStatus` as distinguished by
`loadAddFriendConfig`: success, a `pkg.ErrNotRegistered` error, or any
other error. -/
inductive CheckResult where
  | ok : CheckResult
  | notRegistered : CheckResult
  | otherError : CheckResult
deriving DecidableEq

/-- Result of `pkg.Client.Extract`: the IBE identity private key share
and the PKG's identity-attestation signature. -/
structure ExtractResult where
  privateKey : Nat
  identitySig : Nat
deriving DecidableEq

/-- Per-PKG entry of `coordinator.PKGRound.PKGSettings`: the PKG's IBE
master public key and its BLS public key. -/
structure PKGSetting where
  masterPublicKey : Nat
  blsPublicKey : Nat
deriving DecidableEq

/-- `coordinator.AlpenhornConfig`: the fields the add-friend engine
reads.  `hash` models `Config.Hash()`. -/
structure AlpenhornConfig where
  hash : Nat
  pkgServers : List Nat
  mixServers : List Nat
  cdnServer : Nat
deriving DecidableEq

/-- `OutgoingFriendRequest`.  `reqId` models Go pointer identity. -/
structure OutgoingFriendRequest where
  reqId : Nat
  username : String
  expectedKey : Option Nat
  confirmation : Bool
  dialRound : Nat
deriving DecidableEq

/-- `sentFriendRequest`.  `reqId` models Go pointer identity. -/
structure SentFriendRequest where
  reqId : Nat
  username : String
  expectedKey : Option Nat
  confirmation : Bool
  dialRound : Nat
  sentRound : Nat
  dhPublicKey : Nat
  dhPrivateKey : Nat
deriving DecidableEq

/-- `IncomingFriendRequest`.  `reqId` models Go pointer identity. -/
structure IncomingFriendRequest where
  reqId : Nat
  username : String
  longTermKey : Nat
  dhPublicKey : Nat
  dialRound : Nat
  verifiers : List Nat
deriving DecidableEq

/-- `Friend`: the fields set by `newFriend`. -/
structure Friend where
  username : String
  longTermKey : Nat
deriving DecidableEq

/-- The on-wire `introduction` object. -/
structure Introduction where
  username : Identity
  dhPublicKey : Nat
  longTermKey : Nat
  dialingRound : Nat
  serverMultisig : Nat
  signature : Nat
deriving DecidableEq

/-- `addFriendRoundState`.  The four key arrays are `nil` (`none`) until
`extractPKGKeys` allocates them; allocated entries are `Option Nat`
(zero values in Go, `none` here, until filled). -/
structure AddFriendRoundState where
  round : Nat
  config : AlpenhornConfig
  serverMasterKeys : Option (List (Option Nat))
  privateKeys : Option (List (Option Nat))
  serverBLSKeys : Option (List (Option Nat))
  identitySigs : Option (List (Option Nat))
deriving DecidableEq

/-- Tags of the error strings passed to `Handler.Error`. -/
inductive ErrTag where
  | roundNotConfigured : ErrTag
  | differentConfigs : ErrTag
  | fetchingConfig : ErrTag
  | pkgSettingsFailed : ErrTag
  | noRegistration : ErrTag
  | extractFailed : ErrTag
  | mixSettingsFailed : ErrTag
  | fetchingMailbox : ErrTag
  | registerFailed : ErrTag
  | statusFailed : ErrTag
  | persistFailed : ErrTag
deriving DecidableEq

/-- Events delivered to the application `EventHandler`. -/
inductive Event where
  | error : ErrTag → Event
  | confirmedFriend : Friend → Event
  | sentFriendRequest : OutgoingFriendRequest → Event
  | receivedFriendRequest : IncomingFriendRequest → Event
  | unexpectedSigningKey : IncomingFriendRequest → OutgoingFriendRequest → Event
deriving DecidableEq

/-- Outcome of an operation that may `panic` in Go. -/
inductive Outcome (α : Type) where
  | ok : α → Outcome α
  | panicked : Outcome α
deriving DecidableEq

/-- `coordinator.NewRound`. -/
structure NewRound where
  round : Nat
  configHash : Nat
deriving DecidableEq

/-- `coordinator.PKGRound`: the round plus the PKG settings map (keyed
by PKG key; `pkgSettingsSig` stands for the settings' multisignature
checked by `PKGSettings.Verify`). -/
structure PKGRound where
  round : Nat
  settings : List (Nat × PKGSetting)
  pkgSettingsSig : Nat
deriving DecidableEq

/-- `coordinator.MixRound`: round and mailbox count from
`MixSettings`, the settings' signing message, and the mixers'
signatures. -/
structure MixRound where
  round : Nat
  numMailboxes : Nat
  settingsMsg : List Nat
  mixSignatures : List Nat
deriving DecidableEq

/-- `coordinator.MailboxURL`. -/
structure MailboxURL where
  round : Nat
  url : Nat
  numMailboxes : Nat
deriving DecidableEq

/-- `addfriend.MixMessage`: mailbox index plus fixed-size encrypted
introduction buffer. -/
structure MixMessage where
  mailbox : Nat
  encryptedIntro : List Nat
deriving DecidableEq

/-- The onion message sent to the coordinator (`coordinator.OnionMsg`). -/
structure Onion where
  round : Nat
  payload : List Nat
deriving DecidableEq

/-- The mutable state of `Client` read and written by the add-friend
engine.  `registrations` holds the set of (PKG key, username) pairs with
a registration (`regid`). -/
structure ClientState where
  username : String
  longTermPublicKey : Nat
  longTermPrivateKey : Nat
  lastDialingRound : Nat
  addFriendRounds : List (Nat × AddFriendRoundState)
  addFriendConfig : AlpenhornConfig
  addFriendConfigHash : Nat
  registrations : List (Nat × String)
  friends : List (String × Friend)
  incomingFriendRequests : List IncomingFriendRequest
  outgoingFriendRequests : List OutgoingFriendRequest
  sentFriendRequests : List SentFriendRequest
  wheel : List (String × Nat × Nat)
deriving DecidableEq

/-- Oracles for the cryptographic primitives and external services used
by the engine.  Each field corresponds to one primitive of the source. -/
structure Env where
  /-- `fetchAndVerifyConfig` by target hash. -/
  fetchConfig : Nat → Option AlpenhornConfig
  /-- `pkg.Client.CheckStatus`, keyed by PKG key. -/
  checkStatus : Nat → CheckResult
  /-- `pkg.Client.Register`; `true` means success. -/
  register : Nat → Bool
  /-- whether `persistLocked` succeeds. -/
  persistOK : Bool
  /-- `pkg.Client.Extract` keyed by (PKG key, round). -/
  extract : Nat → Nat → Option ExtractResult
  /-- `bls.Verify` of one key over one attestation
  (attest key, user identity, user long-term key) and a signature. -/
  blsVerify : Nat → Nat → Identity → Nat → Nat → Bool
  /-- `PKGSettings.Verify(round, pkgKeys)` on a `PKGRound`. -/
  pkgSettingsVerify : PKGRound → List Nat → Bool
  /-- `ed25519.Verify(key, msg, sig)`. -/
  edVerify : Nat → List Nat → Nat → Bool
  /-- `box.GenerateKey`: the fresh (public, private) DH pair. -/
  dhKeyPair : Nat × Nat
  /-- `box.Precompute` of a DH shared key. -/
  precompute : Nat → Nat → Nat
  /-- `ibe.MasterPublicKey.Aggregate` over the stored master keys. -/
  aggregateMaster : Option (List (Option Nat)) → Nat
  /-- `ibe.IdentityPrivateKey.Aggregate` over the stored key shares. -/
  aggregatePriv : Option (List (Option Nat)) → Nat
  /-- `bls.Aggregate(...).Compress()` over the stored identity sigs. -/
  aggregateSigs : Option (List (Option Nat)) → Nat
  /-- `introduction.Sign` with the long-term private key. -/
  sign : Nat → Introduction → Nat
  /-- `mustMarshal` of an introduction. -/
  marshalIntro : Introduction → List Nat
  /-- `ibe.Encrypt` then `mustMarshal`: master key, recipient identity,
  plaintext to ciphertext bytes. -/
  ibeEncrypt : Nat → Identity → List Nat → List Nat
  /-- `addfriend.SizeEncryptedIntro`: byte size of a marshalled
  encrypted introduction. -/
  sizeEncryptedIntro : Nat
  /-- `onionbox.Seal` with the round's onion keys. -/
  sealOnion : List Nat → List Nat
  /-- `fetchMailbox(cdnServer, url, mailboxID)`; `none` is a fetch
  error. -/
  fetchMailbox : Nat → Nat → Nat → Option (List Nat)
  /-- `ibe.Ciphertext.UnmarshalBinary` on a span; the `Nat` is a token
  naming the parsed ciphertext. -/
  ctxtUnmarshal : List Nat → Option Nat
  /-- `ibe.Decrypt` with the aggregated private key. -/
  ibeDecrypt : Nat → Nat → Option (List Nat)
  /-- `introduction.UnmarshalBinary`. -/
  introUnmarshal : List Nat → Option Introduction
  /-- `introduction.Verify` against the round's BLS keys (checks the
  BLS multisig and the sender's ed25519 signature). -/
  introVerify : Option (List (Option Nat)) → Introduction → Bool
  /-- `pkg.ValidUsernameToIdentity`. -/
  validUsernameToIdentity : String → Identity
  /-- `pkg.IdentityToUsername`. -/
  identityToUsername : Identity → String
  /-- the keyed hash of `usernameToMailbox` (siphash under the round
  key). -/
  siphash : Identity → Nat
  /-- identity of the `IncomingFriendRequest` allocated by
  `decodeAddFriendMessage` (models a fresh pointer). -/
  freshId : Nat

/-- Association-list lookup (Go map read). -/
def lookupA {κ α : Type} [DecidableEq κ] : List (κ × α) → κ → Option α
  | [], _ => none
  | (k, a) :: rest, k' => if k = k' then some a else lookupA rest k'

/-- Association-list update (Go map write). -/
def updateA {κ α : Type} [DecidableEq κ] : List (κ × α) → κ → α → List (κ × α)
  | [], k, a => [(k, a)]
  | (k', a') :: rest, k, a =>
    if k' = k then (k, a) :: rest else (k', a') :: updateA rest k a

/-- Write index `i` of an allocated key array (`arr[i] = x`). -/
def setIdx (arr : Option (List (Option Nat))) (i : Nat) (x : Nat) :
    Option (List (Option Nat)) :=
  arr.map (fun l => l.set i (some x))

/-- `concurrency.Spans`: split a byte list into consecutive spans of
`n` bytes (the last span may be shorter). -/
def chunks (n : Nat) (l : List Nat) : List (List Nat) :=
  if n = 0 ∨ l = [] then [] else l.take n :: chunks n (l.drop n)
termination_by l.length
decreasing_by
  rename_i h
  push_neg at h
  have hn : 0 < n := Nat.pos_of_ne_zero h.1
  have hl : 0 < l.length := List.length_pos.mpr h.2
  simpa using Nat.sub_lt hl hn

/-- Little-endian 8-byte encoding of the mailbox field. -/
def toBytes8 (n : Nat) : List Nat :=
  (List.range 8).map (fun i => n / 256 ^ i % 256)

/-- Serialization of a `MixMessage`: mailbox[8] followed by the
encrypted-introduction buffer. -/
def mixMessageBytes (m : MixMessage) : List Nat :=
  toBytes8 m.mailbox ++ m.encryptedIntro

/-- `subtle.ConstantTimeCopy(v, dst, src)`: the resulting contents of
`dst` (callers guarantee `dst.length = src.length`). -/
def constantTimeCopy (v : Nat) (dst src : List Nat) : List Nat :=
  if v = 1 then src else dst

/-- Modelled from the spec: `usernameToMailbox` is not under `src/`.
Spec 4.B: `mailbox(username, N) = siphash(k, ValidUsernameToIdentity
(username)) mod N`; the empty username maps to the out-of-range
sentinel `N` used exclusively by cover traffic.  The keyed hash and the
username-to-identity map are passed as parameters. -/
def usernameToMailbox (sip : Identity → Nat) (vuti : String → Identity)
    (username : String) (numMailboxes : Nat) : Nat :=
  if username = "" then numMailboxes
  else sip (vuti username) % numMailboxes

/-- The attestation blob checked against the PKG's identity signature:
`pkg.Attestation{AttestKey, UserIdentity, UserLongTermKey}.Marshal()`,
kept as its three fields. -/
def attestVerify (env : Env) (blsKey : Nat) (ident : Identity)
    (ltk : Nat) (sig : Nat) : Bool :=
  env.blsVerify blsKey blsKey ident ltk sig

/-- `Client.nextOutgoingFriendRequest`: dequeue the queue head, or
synthesize a cover request with empty username (all other fields are Go
zero values). -/
def nextOutgoingFriendRequest (st : ClientState) :
    OutgoingFriendRequest × ClientState :=
  match st.outgoingFriendRequests with
  | [] => ({ reqId := 0, username := "", expectedKey := none,
             confirmation := false, dialRound := 0 }, st)
  | req :: rest => (req, { st with outgoingFriendRequests := rest })

/-- `Client.genIntro`: build the sent-request record and the signed
introduction for an outgoing request. -/
def genIntro (env : Env) (st : ClientState) (rst : AddFriendRoundState)
    (out : OutgoingFriendRequest) : Introduction × SentFriendRequest :=
  let dhPublic := env.dhKeyPair.1
  let dhPrivate := env.dhKeyPair.2
  let sent0 : SentFriendRequest :=
    { reqId := out.reqId, username := out.username,
      expectedKey := out.expectedKey, confirmation := out.confirmation,
      dialRound := out.dialRound, sentRound := rst.round,
      dhPublicKey := dhPublic, dhPrivateKey := dhPrivate }
  let sent := if sent0.confirmation then sent0
              else { sent0 with dialRound := st.lastDialingRound }
  let intro0 : Introduction :=
    { username := env.validUsernameToIdentity st.username,
      dhPublicKey := dhPublic, longTermKey := st.longTermPublicKey,
      dialingRound := sent.dialRound,
      serverMultisig := env.aggregateSigs rst.identitySigs,
      signature := 0 }
  ({ intro0 with signature := env.sign st.longTermPrivateKey intro0 }, sent)

/-- `Client.matchToIncoming`: first queued incoming request with the
same username and dial round as the sent request. -/
def matchToIncoming (st : ClientState) (sentReq : SentFriendRequest) :
    Option IncomingFriendRequest :=
  st.incomingFriendRequests.find? (fun inReq =>
    inReq.username = sentReq.username ∧ inReq.dialRound = sentReq.dialRound)

/-- `Client.matchToSent`: first queued sent request with the same
username and dial round as the incoming request. -/
def matchToSent (st : ClientState) (inReq : IncomingFriendRequest) :
    Option SentFriendRequest :=
  st.sentFriendRequests.find? (fun sentReq =>
    inReq.username = sentReq.username ∧ inReq.dialRound = sentReq.dialRound)

/-- `Client.newFriend`: seed the keywheel, create the `Friend`, remove
the paired requests from both queues (pointer identity, modelled by
`reqId`), persist (a failure is reported via `Handler.Error`), and emit
`ConfirmedFriend`. -/
def newFriend (env : Env) (st : ClientState) (inR : IncomingFriendRequest)
    (sent : SentFriendRequest) : ClientState × List Event :=
  let sharedKey := env.precompute inR.dhPublicKey sent.dhPrivateKey
  let friend : Friend := { username := inR.username,
                           longTermKey := inR.longTermKey }
  let st' := { st with
    wheel := (inR.username, inR.dialRound, sharedKey) :: st.wheel,
    friends := updateA st.friends inR.username friend,
    incomingFriendRequests :=
      st.incomingFriendRequests.filter (fun req => req.reqId ≠ inR.reqId),
    sentFriendRequests :=
      st.sentFriendRequests.filter (fun req => req.reqId ≠ sent.reqId) }
  (st', (if env.persistOK then [] else [Event.error ErrTag.persistFailed])
        ++ [Event.confirmedFriend friend])

/-- The `MixMessage` built by `sendAddFriendOnion`: recipient mailbox
index, and the encrypted introduction copied over a zeroed buffer with
`subtle.ConstantTimeCopy` on the is-real bit. -/
def buildMixMessage (env : Env) (sentUsername : String)
    (numMailboxes : Nat) (encIntroBytes : List Nat) : MixMessage :=
  { mailbox := usernameToMailbox env.siphash env.validUsernameToIdentity
      sentUsername numMailboxes,
    encryptedIntro := constantTimeCopy
      (if sentUsername ≠ "" then 1 else 0)
      (List.replicate env.sizeEncryptedIntro 0) encIntroBytes }

/-- The mixnet-settings check of `sendAddFriendOnion`: every configured
mixer's signature over the settings message verifies. -/
def mixSigsOK (env : Env) (rst : AddFriendRoundState) (v : MixRound) : Bool :=
  (List.range rst.config.mixServers.length).all (fun i =>
    env.edVerify (rst.config.mixServers.getD i 0) v.settingsMsg
      (v.mixSignatures.getD i 0))

/-- `Client.sendAddFriendOnion`: verify the mixnet settings, pull the
next outgoing request (or cover), build and send exactly one onion,
then handle the real-request bookkeeping. -/
def sendAddFriendOnion (env : Env) (st : ClientState) (v : MixRound) :
    ClientState × List Event × List Onion :=
  match lookupA st.addFriendRounds v.round with
  | none => (st, [Event.error ErrTag.roundNotConfigured], [])
  | some rst =>
    if mixSigsOK env rst v then
      let outReq := (nextOutgoingFriendRequest st).1
      let st1 := (nextOutgoingFriendRequest st).2
      let intro := (genIntro env st1 rst outReq).1
      let sentReq := (genIntro env st1 rst outReq).2
      let isReal : Nat := if sentReq.username ≠ "" then 1 else 0
      let masterKey := env.aggregateMaster rst.serverMasterKeys
      let encIntroBytes := env.ibeEncrypt masterKey
        (env.validUsernameToIdentity sentReq.username) (env.marshalIntro intro)
      let mixMessage : MixMessage :=
        { mailbox := usernameToMailbox env.siphash env.validUsernameToIdentity
            sentReq.username v.numMailboxes,
          encryptedIntro := constantTimeCopy isReal
            (List.replicate env.sizeEncryptedIntro 0) encIntroBytes }
      let onion : Onion :=
        { round := v.round, payload := env.sealOnion (mixMessageBytes mixMessage) }
      if sentReq.username ≠ "" then
        match matchToIncoming st1 sentReq with
        | some inReq =>
          let nf := newFriend env st1 inReq sentReq
          (nf.1, Event.sentFriendRequest outReq :: nf.2, [onion])
        | none =>
          ({ st1 with sentFriendRequests := st1.sentFriendRequests ++ [sentReq] },
           [Event.sentFriendRequest outReq], [onion])
      else (st1, [], [onion])
    else (st, [Event.error ErrTag.mixSettingsFailed], [])

/-- The PKG-registration loop of `loadAddFriendConfig`: for each
configured PKG (by key), keep an existing registration, adopt one whose
status check succeeds, register if not registered, and surface other
failures as `Error` events. -/
def registerPKGs (env : Env) (username : String) :
    List Nat → List (Nat × String) → List (Nat × String) × List Event
  | [], regs => (regs, [])
  | key :: rest, regs =>
    if (key, username) ∈ regs then registerPKGs env username rest regs
    else
      match env.checkStatus key with
      | CheckResult.ok => registerPKGs env username rest ((key, username) :: regs)
      | CheckResult.notRegistered =>
        if env.register key then
          registerPKGs env username rest ((key, username) :: regs)
        else
          let r := registerPKGs env username rest regs
          (r.1, Event.error ErrTag.registerFailed :: r.2)
      | CheckResult.otherError =>
        let r := registerPKGs env username rest regs
        (r.1, Event.error ErrTag.statusFailed :: r.2)

/-- `Client.loadAddFriendConfig`: install the config, run the PKG
registration loop, then persist; a persistence failure panics. -/
def loadAddFriendConfig (env : Env) (st : ClientState)
    (config : AlpenhornConfig) : Outcome (ClientState × List Event) :=
  let st1 := { st with addFriendConfig := config,
                       addFriendConfigHash := config.hash }
  let r := registerPKGs env st1.username config.pkgServers st1.registrations
  let st2 := { st1 with registrations := r.1 }
  if env.persistOK then Outcome.ok (st2, r.2) else Outcome.panicked

/-- `Client.newAddFriendRound`: ignore a re-announcement with the same
config hash, surface an error on a different hash, otherwise install
the round state (adopting the current config or fetching the announced
one). -/
def newAddFriendRound (env : Env) (st : ClientState) (v : NewRound) :
    Outcome (ClientState × List Event) :=
  match lookupA st.addFriendRounds v.round with
  | some rst =>
    if rst.config.hash ≠ v.configHash then
      Outcome.ok (st, [Event.error ErrTag.differentConfigs])
    else Outcome.ok (st, [])
  | none =>
    if v.configHash = st.addFriendConfigHash then
      Outcome.ok ({ st with addFriendRounds :=
        (updateA st.addFriendRounds v.round
          { round := v.round, config := st.addFriendConfig,
            serverMasterKeys := none, privateKeys := none,
            serverBLSKeys := none, identitySigs := none }) }, [])
    else
      match env.fetchConfig v.configHash with
      | none => Outcome.ok (st, [Event.error ErrTag.fetchingConfig])
      | some config =>
        let st1 := { st with addFriendRounds :=
          (updateA st.addFriendRounds v.round
            { round := v.round, config := config,
              serverMasterKeys := none, privateKeys := none,
              serverBLSKeys := none, identitySigs := none }) }
        loadAddFriendConfig env st1 config

/-- One iteration of the extraction loop of `extractPKGKeys` succeeds:
a registration exists, `Extract` returns a result, and the PKG's BLS
attestation signature verifies.  The pair `p` is (index, PKG key). -/
def stepSucceeds (env : Env) (username : String) (ltk : Nat)
    (regs : List (Nat × String)) (v : PKGRound) (p : Nat × Nat) : Bool :=
  decide ((p.2, username) ∈ regs) &&
    (match env.extract p.2 v.round with
     | none => false
     | some res =>
       attestVerify env ((lookupA v.settings p.2).getD ⟨0, 0⟩).blsPublicKey
         (env.validUsernameToIdentity username) ltk res.identitySig)

/-- The per-PKG extraction loop of `extractPKGKeys` over the indexed
PKG key list: on a missing registration or an `Extract` error the loop
stops with an `Error` event; on a BLS attestation failure it stops
silently (only logged), leaving the master/BLS/private entries of that
index already written; on success it also writes the identity
signature and continues. -/
def extractLoop (env : Env) (username : String) (ltk : Nat)
    (regs : List (Nat × String)) (v : PKGRound) :
    List (Nat × Nat) → AddFriendRoundState → AddFriendRoundState × List Event
  | [], rst => (rst, [])
  | (i, key) :: rest, rst =>
    if (key, username) ∈ regs then
      match env.extract key v.round with
      | none => (rst, [Event.error ErrTag.extractFailed])
      | some res =>
        let setting := (lookupA v.settings key).getD ⟨0, 0⟩
        let rst1 := { rst with
          serverMasterKeys := setIdx rst.serverMasterKeys i setting.masterPublicKey,
          serverBLSKeys := setIdx rst.serverBLSKeys i setting.blsPublicKey,
          privateKeys := setIdx rst.privateKeys i res.privateKey }
        if attestVerify env setting.blsPublicKey
            (env.validUsernameToIdentity username) ltk res.identitySig then
          extractLoop env username ltk regs v rest
            { rst1 with identitySigs := setIdx rst1.identitySigs i res.identitySig }
        else (rst1, [])
    else (rst, [Event.error ErrTag.noRegistration])

/-- `Client.extractPKGKeys`: return immediately when the round's
private keys are already populated; verify the PKG settings; allocate
the four key arrays; run the extraction loop. -/
def extractPKGKeys (env : Env) (st : ClientState) (v : PKGRound) :
    ClientState × List Event :=
  match lookupA st.addFriendRounds v.round with
  | none => (st, [Event.error ErrTag.roundNotConfigured])
  | some rst =>
    if rst.privateKeys ≠ none then (st, [])
    else if env.pkgSettingsVerify v rst.config.pkgServers then
      let n := rst.config.pkgServers.length
      let rst0 := { rst with
        serverMasterKeys := some (List.replicate n none),
        privateKeys := some (List.replicate n none),
        serverBLSKeys := some (List.replicate n none),
        identitySigs := some (List.replicate n none) }
      let r := extractLoop env st.username st.longTermPublicKey
        st.registrations v rst.config.pkgServers.enum rst0
      ({ st with addFriendRounds := updateA st.addFriendRounds v.round r.1 },
       r.2)
    else (st, [Event.error ErrTag.pkgSettingsFailed])

/-- `Client.decodeAddFriendMessage`: parse and verify a decrypted
introduction; on success build the incoming request and either pair it
with a matching sent request or queue it and emit
`ReceivedFriendRequest`.  Parse and verification failures are silent. -/
def decodeAddFriendMessage (env : Env) (st : ClientState)
    (verifiers : List Nat) (multisigKeys : Option (List (Option Nat)))
    (msg : List Nat) : ClientState × List Event :=
  match env.introUnmarshal msg with
  | none => (st, [])
  | some intro =>
    if env.introVerify multisigKeys intro then
      let req : IncomingFriendRequest :=
        { reqId := env.freshId,
          username := env.identityToUsername intro.username,
          longTermKey := intro.longTermKey,
          dhPublicKey := intro.dhPublicKey,
          dialRound := intro.dialingRound,
          verifiers := verifiers }
      match matchToSent st req with
      | some sentReq => newFriend env st req sentReq
      | none =>
        ({ st with incomingFriendRequests := st.incomingFriendRequests ++ [req] },
         [Event.receivedFriendRequest req])
    else (st, [])

/-- The per-span body of the mailbox scan: unmarshal the ciphertext,
decrypt it with the aggregated identity private key, and decode; both
failure cases are silent (`continue`). -/
def processSpan (env : Env) (st : ClientState) (rst : AddFriendRoundState)
    (privKey : Nat) (span : List Nat) : ClientState × List Event :=
  match env.ctxtUnmarshal span with
  | none => (st, [])
  | some ctxt =>
    match env.ibeDecrypt privKey ctxt with
    | none => (st, [])
    | some msg =>
      decodeAddFriendMessage env st rst.config.pkgServers rst.serverBLSKeys msg

/-- `Client.scanMailbox`: fetch the user's mailbox (a fetch error is
surfaced as `Error`; an unknown round is silently ignored, matching the
commented-out error in the source), split it into
`SizeEncryptedIntro`-byte spans and process each span. -/
def scanMailbox (env : Env) (st : ClientState) (v : MailboxURL) :
    ClientState × List Event :=
  match lookupA st.addFriendRounds v.round with
  | none => (st, [])
  | some rst =>
    let mailboxID := usernameToMailbox env.siphash env.validUsernameToIdentity
      st.username v.numMailboxes
    match env.fetchMailbox rst.config.cdnServer v.url mailboxID with
    | none => (st, [Event.error ErrTag.fetchingMailbox])
    | some mailbox =>
      let privKey := env.aggregatePriv rst.privateKeys
      (chunks env.sizeEncryptedIntro mailbox).foldl
        (fun acc span =>
          let r := processSpan env acc.1 rst privKey span
          (r.1, acc.2 ++ r.2))
        (st, ([] : List Event))

/-- Username used in concrete witness states. -/
def aliceName : String := "alice"

/-- Username used in concrete witness states. -/
def bobName : String := "bob"

/-- A concrete oracle environment for witnesses: all verifications
succeed, persistence succeeds, the mailbox is empty. -/
def env0 : Env :=
  { fetchConfig := fun _ => none
    checkStatus := fun _ => CheckResult.ok
    register := fun _ => true
    persistOK := true
    extract := fun _ _ => some { privateKey := 7, identitySig := 8 }
    blsVerify := fun _ _ _ _ _ => true
    pkgSettingsVerify := fun _ _ => true
    edVerify := fun _ _ _ => true
    dhKeyPair := (3, 4)
    precompute := fun a b => a + b
    aggregateMaster := fun _ => 0
    aggregatePriv := fun _ => 0
    aggregateSigs := fun _ => 0
    sign := fun _ _ => 9
    marshalIntro := fun _ => []
    ibeEncrypt := fun _ _ _ => List.replicate 5 1
    sizeEncryptedIntro := 5
    sealOnion := fun l => l
    fetchMailbox := fun _ _ _ => some []
    ctxtUnmarshal := fun _ => none
    ibeDecrypt := fun _ _ => none
    introUnmarshal := fun _ => none
    introVerify := fun _ _ => false
    validUsernameToIdentity := fun s => s
    identityToUsername := fun s => s
    siphash := fun _ => 7
    freshId := 99 }

/-- A concrete config for witnesses. -/
def cfg0 : AlpenhornConfig :=
  { hash := 10, pkgServers := [1, 2], mixServers := [5], cdnServer := 6 }

/-- A concrete round state for witnesses (round 3, keys not yet
extracted). -/
def rst0 : AddFriendRoundState :=
  { round := 3, config := cfg0, serverMasterKeys := none,
    privateKeys := none, serverBLSKeys := none, identitySigs := none }

/-- A concrete client state for witnesses: round 3 configured, all
queues empty. -/
def cs0 : ClientState :=
  { username := aliceName, longTermPublicKey := 11, longTermPrivateKey := 12
    lastDialingRound := 20
    addFriendRounds := [(3, rst0)]
    addFriendConfig := cfg0
    addFriendConfigHash := 10
    registrations := [(1, aliceName), (2, aliceName)]
    friends := []
    incomingFriendRequests := []
    outgoingFriendRequests := []
    sentFriendRequests := []
    wheel := [] }

/-- C4: for a known round, a `newround` re-announcement with the same
config hash is a no-op (state unchanged, no event), and one with a
different hash emits an `Error` and leaves the state — hence the
round's stored config with its first-announced hash — unchanged. -/
theorem C4_newround_rebroadcast (env : Env) (st : ClientState)
    (v : NewRound) (rst : AddFriendRoundState)
    (h : lookupA st.addFriendRounds v.round = some rst) :
    (rst.config.hash = v.configHash →
      newAddFriendRound env st v = Outcome.ok (st, [])) ∧
    (rst.config.hash ≠ v.configHash →
      newAddFriendRound env st v =
        Outcome.ok (st, [Event.error ErrTag.differentConfigs])) := by
  constructor <;> intro hh <;> simp [newAddFriendRound, h, hh]

/-- Witness for C4 at round 3 of the concrete state: same hash 10 is a
no-op, different hash 99 yields the error event with unchanged state. -/
theorem C4_witness :
    newAddFriendRound env0 cs0 { round := 3, configHash := 10 } =
      Outcome.ok (cs0, []) ∧
    newAddFriendRound env0 cs0 { round := 3, configHash := 99 } =
      Outcome.ok (cs0, [Event.error ErrTag.differentConfigs]) :=
  ⟨(C4_newround_rebroadcast env0 cs0 { round := 3, configHash := 10 } rst0
      (by decide)).1 (by decide),
   (C4_newround_rebroadcast env0 cs0 { round := 3, configHash := 99 } rst0
      (by decide)).2 (by decide)⟩

/-- C9: once a round's PKG key extraction has populated the round
state (`PrivateKeys` non-nil), dispatching another `pkg` message for
that round leaves the client state unchanged and emits nothing. -/
theorem C9_pkg_idempotent (env : Env) (st : ClientState) (v : PKGRound)
    (rst : AddFriendRoundState)
    (h1 : lookupA st.addFriendRounds v.round = some rst)
    (h2 : rst.privateKeys ≠ none) :
    extractPKGKeys env st v = (st, []) := by
  simp [extractPKGKeys, h1, h2]

/-- A concrete round state whose PKG keys are already extracted. -/
def rstPopulated : AddFriendRoundState :=
  { rst0 with
    serverMasterKeys := some [some 1, some 2]
    privateKeys := some [some 7, some 7]
    serverBLSKeys := some [some 3, some 4]
    identitySigs := some [some 8, some 8] }

/-- A concrete client state whose round 3 already has extracted keys. -/
def csPopulated : ClientState :=
  { cs0 with addFriendRounds := [(3, rstPopulated)] }

/-- Witness for C9: a second `pkg` dispatch for round 3 is a no-op. -/
theorem C9_witness :
    extractPKGKeys env0 csPopulated
      { round := 3, settings := [], pkgSettingsSig := 0 } =
      (csPopulated, []) :=
  C9_pkg_idempotent env0 csPopulated
    { round := 3, settings := [], pkgSettingsSig := 0 } rstPopulated
    (by decide) (by decide)

/-- C8: the mailbox index for a username is the round's keyed hash
(siphash) of `ValidUsernameToIdentity(username)` reduced modulo the
mailbox count, the empty username maps to the sentinel index `N`, and
the `MixMessage` built by the engine uses exactly this index. -/
theorem C8_mailbox_addressing (env : Env) (sip : Identity → Nat)
    (vuti : String → Identity) (u : String) (N : Nat) (enc : List Nat) :
    (u ≠ "" → usernameToMailbox sip vuti u N = sip (vuti u) % N) ∧
    usernameToMailbox sip vuti "" N = N ∧
    (buildMixMessage env u N enc).mailbox =
      usernameToMailbox env.siphash env.validUsernameToIdentity u N := by
  refine ⟨fun hu => ?_, ?_, ?_⟩
  · simp [usernameToMailbox, hu]
  · simp [usernameToMailbox]
  · simp [buildMixMessage]

/-- Witness for C8: with a keyed hash returning 7, user `bob` maps to
mailbox 7 % 3 and the empty (cover) username maps to the sentinel 3. -/
theorem C8_witness :
    usernameToMailbox (fun _ => 7) (fun s => s) bobName 3 = 7 % 3 ∧
    usernameToMailbox (fun _ => 7) (fun s => s) "" 3 = 3 :=
  ⟨(C8_mailbox_addressing env0 (fun _ => 7) (fun s => s) bobName 3 []).1
      (by decide),
   (C8_mailbox_addressing env0 (fun _ => 7) (fun s => s) bobName 3 []).2.1⟩

/-- C5: the cover and the real `MixMessage` serialize to the same
total byte length (8 mailbox bytes plus the fixed encrypted-intro
size), and the encrypted introduction is written through the
constant-time select on the is-real bit: the real message's buffer is
the ciphertext, the cover message's buffer is the untouched zero
buffer of the same constant size. -/
theorem C5_cover_indistinguishable_length (env : Env) (u : String)
    (N M : Nat) (encReal encCover : List Nat) (hu : u ≠ "")
    (hlen : encReal.length = env.sizeEncryptedIntro) :
    (mixMessageBytes (buildMixMessage env u N encReal)).length =
      8 + env.sizeEncryptedIntro ∧
    (mixMessageBytes (buildMixMessage env "" M encCover)).length =
      8 + env.sizeEncryptedIntro ∧
    (buildMixMessage env u N encReal).encryptedIntro = encReal ∧
    (buildMixMessage env "" M encCover).encryptedIntro =
      List.replicate env.sizeEncryptedIntro 0 := by
  refine ⟨?_, ?_, ?_, ?_⟩ <;>
    simp [mixMessageBytes, toBytes8, buildMixMessage, constantTimeCopy,
      hu, hlen, Nat.add_comm]

/-- Witness for C5: a real message to `bob` and a cover message have
byte length 13 each (8 + 5), with the select keeping the ciphertext
for the real message and zeros for the cover one. -/
theorem C5_witness :
    (mixMessageBytes (buildMixMessage env0 bobName 3 (List.replicate 5 1))).length =
      8 + 5 ∧
    (mixMessageBytes (buildMixMessage env0 "" 3 [])).length = 8 + 5 ∧
    (buildMixMessage env0 bobName 3 (List.replicate 5 1)).encryptedIntro =
      List.replicate 5 1 ∧
    (buildMixMessage env0 "" 3 []).encryptedIntro = List.replicate 5 0 :=
  C5_cover_indistinguishable_length env0 bobName 3 3
    (List.replicate 5 1) [] (by decide) (by decide)

/-- C6: during a mailbox scan, a span whose ciphertext fails to
unmarshal, fails IBE decryption, whose introduction fails to
unmarshal, or whose introduction fails signature verification is
dropped with no state change and no event; a mailbox fetch failure, a
non-cryptographic error, is surfaced as an `Error` event. -/
theorem C6_silent_crypto_drops (env : Env) (st : ClientState)
    (rst : AddFriendRoundState) (pk ctxt : Nat) (span msg : List Nat)
    (verifiers : List Nat) (multisigKeys : Option (List (Option Nat)))
    (intro : Introduction) (v : MailboxURL) :
    (env.ctxtUnmarshal span = none →
      processSpan env st rst pk span = (st, [])) ∧
    (env.ctxtUnmarshal span = some ctxt → env.ibeDecrypt pk ctxt = none →
      processSpan env st rst pk span = (st, [])) ∧
    (env.introUnmarshal msg = none →
      decodeAddFriendMessage env st verifiers multisigKeys msg = (st, [])) ∧
    (env.introUnmarshal msg = some intro →
      env.introVerify multisigKeys intro = false →
      decodeAddFriendMessage env st verifiers multisigKeys msg = (st, [])) ∧
    (lookupA st.addFriendRounds v.round = some rst →
      env.fetchMailbox rst.config.cdnServer v.url
        (usernameToMailbox env.siphash env.validUsernameToIdentity
          st.username v.numMailboxes) = none →
      scanMailbox env st v = (st, [Event.error ErrTag.fetchingMailbox])) := by
  refine ⟨fun h1 => ?_, fun h1 h2 => ?_, fun h1 => ?_, fun h1 h2 => ?_,
    fun h1 h2 => ?_⟩
  · simp [processSpan, h1]
  · simp [processSpan, h1, h2]
  · simp [decodeAddFriendMessage, h1]
  · simp [decodeAddFriendMessage, h1, h2]
  · simp [scanMailbox, h1, h2]

/-- An environment whose mailbox fetch fails (HTTP error). -/
def envFetchFail : Env := { env0 with fetchMailbox := fun _ _ _ => none }

/-- Witness for C6: a span that fails ciphertext unmarshalling is
dropped silently, and a failed mailbox fetch emits exactly the `Error`
event. -/
theorem C6_witness :
    processSpan env0 cs0 rst0 0 [1] = (cs0, []) ∧
    scanMailbox envFetchFail cs0 { round := 3, url := 4, numMailboxes := 2 } =
      (cs0, [Event.error ErrTag.fetchingMailbox]) :=
  ⟨(C6_silent_crypto_drops env0 cs0 rst0 0 0 [1] [] [] none
      { username := aliceName, dhPublicKey := 0, longTermKey := 0,
        dialingRound := 0, serverMultisig := 0, signature := 0 }
      { round := 3, url := 4, numMailboxes := 2 }).1 (by decide),
   (C6_silent_crypto_drops envFetchFail cs0 rst0 0 0 [1] [] [] none
      { username := aliceName, dhPublicKey := 0, longTermKey := 0,
        dialingRound := 0, serverMultisig := 0, signature := 0 }
      { round := 3, url := 4, numMailboxes := 2 }).2.2.2.2 (by decide) (by decide)⟩

/-- Lookup after update at the same key returns the new value. -/
theorem lookupA_updateA {κ α : Type} [DecidableEq κ]
    (m : List (κ × α)) (k : κ) (a : α) :
    lookupA (updateA m k a) k = some a := by
  induction m with
  | nil => simp [updateA, lookupA]
  | cons hd tl ih =>
    by_cases h : hd.1 = k <;> simp [updateA, lookupA, h, ih]

/-- C3: a sent and an incoming request are paired exactly when both
the username and the dial round match (the matchers return a hit iff a
matching queue entry exists, and any hit is a matching queue entry);
on pairing, `newFriend` removes the incoming request from the incoming
queue and the sent request from the sent queue, and records a `Friend`
for that username built from the incoming request's long-term key. -/
theorem C3_pairing_iff_and_removal (env : Env) (st : ClientState)
    (inReq : IncomingFriendRequest) (sentQ : SentFriendRequest) :
    ((matchToSent st inReq).isSome ↔ ∃ s ∈ st.sentFriendRequests,
      inReq.username = s.username ∧ inReq.dialRound = s.dialRound) ∧
    (∀ s, matchToSent st inReq = some s → s ∈ st.sentFriendRequests ∧
      inReq.username = s.username ∧ inReq.dialRound = s.dialRound) ∧
    ((matchToIncoming st sentQ).isSome ↔ ∃ r ∈ st.incomingFriendRequests,
      r.username = sentQ.username ∧ r.dialRound = sentQ.dialRound) ∧
    (∀ r, matchToIncoming st sentQ = some r → r ∈ st.incomingFriendRequests ∧
      r.username = sentQ.username ∧ r.dialRound = sentQ.dialRound) ∧
    (∀ inR sent,
      (newFriend env st inR sent).1.incomingFriendRequests =
        st.incomingFriendRequests.filter (fun req => req.reqId ≠ inR.reqId) ∧
      (newFriend env st inR sent).1.sentFriendRequests =
        st.sentFriendRequests.filter (fun req => req.reqId ≠ sent.reqId) ∧
      lookupA (newFriend env st inR sent).1.friends inR.username =
        some { username := inR.username, longTermKey := inR.longTermKey }) := by
  refine ⟨?_, fun s hs => ?_, ?_, fun r hr => ?_, fun inR sent => ?_⟩
  · simp [matchToSent, List.find?_isSome]
  · have hmem := List.mem_of_find?_eq_some hs
    have hp := List.find?_some hs
    simp only [decide_eq_true_eq, Bool.and_eq_true] at hp
    exact ⟨hmem, by simpa using hp⟩
  · simp [matchToIncoming, List.find?_isSome]
  · have hmem := List.mem_of_find?_eq_some hr
    have hp := List.find?_some hr
    simp only [decide_eq_true_eq, Bool.and_eq_true] at hp
    exact ⟨hmem, by simpa using hp⟩
  · refine ⟨by simp [newFriend], by simp [newFriend], ?_⟩
    simp [newFriend, lookupA_updateA]

/-- A concrete sent friend request to `bob` with a pinned expected
key 100, dial round 5. -/
def sentX : SentFriendRequest :=
  { reqId := 1, username := bobName, expectedKey := some 100,
    confirmation := false, dialRound := 5, sentRound := 3,
    dhPublicKey := 3, dhPrivateKey := 4 }

/-- A concrete incoming friend request from `bob` carrying long-term
key 200, dial round 5. -/
def inY : IncomingFriendRequest :=
  { reqId := 2, username := bobName, longTermKey := 200,
    dhPublicKey := 50, dialRound := 5, verifiers := [] }

/-- The concrete client state with `sentX` queued. -/
def csX : ClientState := { cs0 with sentFriendRequests := [sentX] }

/-- Witness for C3: the incoming request from `bob` at dial round 5
pairs with the queued sent request, and `newFriend` empties the sent
queue and records the friend under `bob`. -/
theorem C3_witness :
    (matchToSent csX inY).isSome ∧
    (newFriend env0 csX inY sentX).1.sentFriendRequests = [] ∧
    (newFriend env0 csX inY sentX).1.incomingFriendRequests = [] ∧
    lookupA (newFriend env0 csX inY sentX).1.friends bobName =
      some { username := bobName, longTermKey := 200 } :=
  ⟨(C3_pairing_iff_and_removal env0 csX inY sentX).1.mpr
      ⟨sentX, by decide, by decide, by decide⟩,
   (((C3_pairing_iff_and_removal env0 csX inY sentX).2.2.2.2 inY sentX).2.1).trans
      (by decide),
   (((C3_pairing_iff_and_removal env0 csX inY sentX).2.2.2.2 inY sentX).1).trans
      (by decide),
   ((C3_pairing_iff_and_removal env0 csX inY sentX).2.2.2.2 inY sentX).2.2⟩

/-- The sent-request record generated by `genIntro` keeps the outgoing
request's username. -/
theorem genIntro_username (env : Env) (st : ClientState)
    (rst : AddFriendRoundState) (out : OutgoingFriendRequest) :
    (genIntro env st rst out).2.username = out.username := by
  simp only [genIntro]
  split <;> rfl

/-- C1: when the round is configured and every mixnet settings
signature verifies, the engine sends exactly one onion for the round;
with an empty outgoing queue it sends a cover onion with no state
change and no event, and with a queued request it dequeues the head
(FIFO) and emits `SentFriendRequest` for it first. -/
theorem C1_exactly_one_onion (env : Env) (st : ClientState) (v : MixRound)
    (rst : AddFriendRoundState)
    (h1 : lookupA st.addFriendRounds v.round = some rst)
    (h2 : mixSigsOK env rst v = true) :
    ((sendAddFriendOnion env st v).2.2.length = 1 ∧
      ∀ o ∈ (sendAddFriendOnion env st v).2.2, o.round = v.round) ∧
    (st.outgoingFriendRequests = [] →
      (sendAddFriendOnion env st v).1 = st ∧
      (sendAddFriendOnion env st v).2.1 = []) ∧
    (∀ req rest, st.outgoingFriendRequests = req :: rest →
      req.username ≠ "" →
      (sendAddFriendOnion env st v).1.outgoingFriendRequests = rest ∧
      (sendAddFriendOnion env st v).2.1.head? =
        some (Event.sentFriendRequest req)) := by
  simp only [sendAddFriendOnion, h1, h2, if_true]
  rcases hq : st.outgoingFriendRequests with _ | ⟨req, rest⟩
  · simp only [nextOutgoingFriendRequest, hq, genIntro]
    simp
  · by_cases hu : req.username = ""
    · simp only [nextOutgoingFriendRequest, hq]
      have hsu : (genIntro env { st with outgoingFriendRequests := rest } rst req).2.username = "" := by
        rw [genIntro_username]; exact hu
      rw [hsu]
      simp [hq]
      exact hu
    · simp only [nextOutgoingFriendRequest, hq]
      have hsu : (genIntro env { st with outgoingFriendRequests := rest } rst req).2.username = req.username := by
        rw [genIntro_username]
      rw [hsu]
      simp only [hu, ne_eq, not_false_iff, if_true]
      rcases hm : matchToIncoming { st with outgoingFriendRequests := rest }
          (genIntro env { st with outgoingFriendRequests := rest } rst req).2 with _ | inReq
      · simp [hq, hu, newFriend]
      · simp [hq, hu, newFriend]

/-- A concrete queued outgoing friend request to `bob`. -/
def outZ : OutgoingFriendRequest :=
  { reqId := 5, username := bobName, expectedKey := none,
    confirmation := false, dialRound := 0 }

/-- The concrete client state with `outZ` queued. -/
def csQ : ClientState := { cs0 with outgoingFriendRequests := [outZ] }

/-- A concrete `mix` message for round 3 whose settings signature
verifies under `env0`. -/
def vMix : MixRound :=
  { round := 3, numMailboxes := 2, settingsMsg := [], mixSignatures := [0] }

/-- Witness for C1: with an empty queue the engine sends one cover
onion and no event; with `outZ` queued it still sends exactly one
onion, dequeues `outZ`, and emits `SentFriendRequest outZ` first. -/
theorem C1_witness :
    (sendAddFriendOnion env0 cs0 vMix).2.2.length = 1 ∧
    (sendAddFriendOnion env0 cs0 vMix).1 = cs0 ∧
    (sendAddFriendOnion env0 cs0 vMix).2.1 = [] ∧
    (sendAddFriendOnion env0 csQ vMix).2.2.length = 1 ∧
    (sendAddFriendOnion env0 csQ vMix).1.outgoingFriendRequests = [] ∧
    (sendAddFriendOnion env0 csQ vMix).2.1.head? =
      some (Event.sentFriendRequest outZ) :=
  ⟨(C1_exactly_one_onion env0 cs0 vMix rst0 (by decide) (by decide)).1.1,
   ((C1_exactly_one_onion env0 cs0 vMix rst0 (by decide) (by decide)).2.1 rfl).1,
   ((C1_exactly_one_onion env0 cs0 vMix rst0 (by decide) (by decide)).2.1 rfl).2,
   (C1_exactly_one_onion env0 csQ vMix rst0 (by decide) (by decide)).1.1,
   ((C1_exactly_one_onion env0 csQ vMix rst0 (by decide) (by decide)).2.2 outZ []
      rfl (by decide)).1,
   ((C1_exactly_one_onion env0 csQ vMix rst0 (by decide) (by decide)).2.2 outZ []
      rfl (by decide)).2⟩

/-- The introduction from `bob` carrying long-term key 200, which
differs from the expected key 100 pinned in `sentX`. -/
def introY : Introduction :=
  { username := bobName, dhPublicKey := 50, longTermKey := 200,
    dialingRound := 5, serverMultisig := 0, signature := 0 }

/-- An environment in which the mailbox span parses and verifies as
`introY`. -/
def envIntroY : Env :=
  { env0 with introUnmarshal := fun _ => some introY,
              introVerify := fun _ _ => true }

/-- `true` unless the event is `UnexpectedSigningKey`. -/
def notUnexpectedKeyEvent : Event → Bool
  | Event.unexpectedSigningKey _ _ => false
  | _ => true

/-- C2 (code evaluated at the failing input): the client holds a sent
request to `bob` with pinned expected key 100; a verified incoming
introduction from `bob` at the same dial round carries long-term key
200.  `decodeAddFriendMessage` pairs them anyway: it creates the
Friend with key 200, emits `ConfirmedFriend`, and emits no
`UnexpectedSigningKey` event. -/
theorem C2_expected_key_ignored :
    (decodeAddFriendMessage envIntroY csX [] none [0]).2 =
      [Event.confirmedFriend { username := bobName, longTermKey := 200 }] ∧
    lookupA (decodeAddFriendMessage envIntroY csX [] none [0]).1.friends
      bobName = some { username := bobName, longTermKey := 200 } ∧
    (decodeAddFriendMessage envIntroY csX [] none [0]).2.all
      notUnexpectedKeyEvent = true := by
  refine ⟨by decide, by decide, by decide⟩

/-- An environment whose persistence write fails. -/
def envPersistFail : Env := { env0 with persistOK := false }

/-- Counterexample to C7: with a failing persistence write,
`newFriend` does not panic: it returns normally, with the friend
recorded in the in-memory state (diverged from disk) and the failure
merely reported as an `Error` event followed by `ConfirmedFriend`. -/
theorem C7_counterexample :
    newFriend envPersistFail csX inY sentX =
      ({ csX with
          wheel := [(bobName, 5, 54)],
          friends := [(bobName, { username := bobName, longTermKey := 200 })],
          incomingFriendRequests := [],
          sentFriendRequests := [] },
       [Event.error ErrTag.persistFailed,
        Event.confirmedFriend { username := bobName, longTermKey := 200 }]) := by
  decide

/-- C7 as amended: a persistence failure in `loadAddFriendConfig`
panics, while a persistence failure in `newFriend` is surfaced as an
`Error` event and the engine continues (the `ConfirmedFriend` event is
still delivered afterwards). -/
theorem C7_persist_failure_split (env : Env) (st : ClientState)
    (config : AlpenhornConfig) (inR : IncomingFriendRequest)
    (sent : SentFriendRequest) (hp : env.persistOK = false) :
    loadAddFriendConfig env st config = Outcome.panicked ∧
    (newFriend env st inR sent).2 =
      [Event.error ErrTag.persistFailed,
       Event.confirmedFriend
         { username := inR.username, longTermKey := inR.longTermKey }] := by
  constructor
  · simp [loadAddFriendConfig, hp]
  · simp [newFriend, hp]

/-- Witness for the amended C7 at the concrete failing-persistence
environment. -/
theorem C7_witness :
    loadAddFriendConfig envPersistFail cs0 cfg0 = Outcome.panicked ∧
    (newFriend envPersistFail csX inY sentX).2 =
      [Event.error ErrTag.persistFailed,
       Event.confirmedFriend { username := bobName, longTermKey := 200 }] :=
  C7_persist_failure_split envPersistFail cs0 cfg0 inY sentX (by decide)

/-- One successful iteration of the extraction loop steps to the tail
with all four arrays written at the iteration's index. -/
theorem extractLoop_step_success (env : Env) (u : String) (ltk : Nat)
    (regs : List (Nat × String)) (v : PKGRound) (j key : Nat)
    (rest : List (Nat × Nat)) (rst : AddFriendRoundState)
    (res : ExtractResult)
    (hreg : (key, u) ∈ regs) (hext : env.extract key v.round = some res)
    (hbls : attestVerify env
      ((lookupA v.settings key).getD ⟨0, 0⟩).blsPublicKey
      (env.validUsernameToIdentity u) ltk res.identitySig = true) :
    extractLoop env u ltk regs v ((j, key) :: rest) rst =
      extractLoop env u ltk regs v rest
        { rst with
          serverMasterKeys := setIdx rst.serverMasterKeys j
            ((lookupA v.settings key).getD ⟨0, 0⟩).masterPublicKey,
          serverBLSKeys := setIdx rst.serverBLSKeys j
            ((lookupA v.settings key).getD ⟨0, 0⟩).blsPublicKey,
          privateKeys := setIdx rst.privateKeys j res.privateKey,
          identitySigs := setIdx rst.identitySigs j res.identitySig } := by
  simp [extractLoop, hreg, hext, hbls]

/-- The extraction loop never changes whether the four key arrays of
the round state are allocated (non-nil). -/
theorem extractLoop_arrays_isSome (env : Env) (u : String) (ltk : Nat)
    (regs : List (Nat × String)) (v : PKGRound) (L : List (Nat × Nat)) :
    ∀ rst : AddFriendRoundState,
      (extractLoop env u ltk regs v L rst).1.serverMasterKeys.isSome
          = rst.serverMasterKeys.isSome ∧
      (extractLoop env u ltk regs v L rst).1.privateKeys.isSome
          = rst.privateKeys.isSome ∧
      (extractLoop env u ltk regs v L rst).1.serverBLSKeys.isSome
          = rst.serverBLSKeys.isSome ∧
      (extractLoop env u ltk regs v L rst).1.identitySigs.isSome
          = rst.identitySigs.isSome := by
  induction L with
  | nil => intro rst; simp [extractLoop]
  | cons p rest ih =>
    intro rst
    obtain ⟨j, key⟩ := p
    by_cases hreg : (key, u) ∈ regs
    · rcases hext : env.extract key v.round with _ | res
      · simp [extractLoop, hreg, hext]
      · by_cases hbls : attestVerify env
            ((lookupA v.settings key).getD ⟨0, 0⟩).blsPublicKey
            (env.validUsernameToIdentity u) ltk res.identitySig = true
        · rw [extractLoop_step_success env u ltk regs v j key rest rst res
            hreg hext hbls]
          obtain ⟨ih1, ih2, ih3, ih4⟩ := ih
            { rst with
              serverMasterKeys := setIdx rst.serverMasterKeys j
                ((lookupA v.settings key).getD ⟨0, 0⟩).masterPublicKey,
              serverBLSKeys := setIdx rst.serverBLSKeys j
                ((lookupA v.settings key).getD ⟨0, 0⟩).blsPublicKey,
              privateKeys := setIdx rst.privateKeys j res.privateKey,
              identitySigs := setIdx rst.identitySigs j res.identitySig }
          rw [ih1, ih2, ih3, ih4]
          simp [setIdx, Option.isSome_map]
        · simp [extractLoop, hreg, hext, hbls, setIdx, Option.isSome_map]
    · simp [extractLoop, hreg]

/-- If no iteration of the extraction loop at array index `i` succeeds,
the loop leaves the identity-signature entry at `i` unchanged. -/
theorem extractLoop_sig_preserved (env : Env) (u : String) (ltk : Nat)
    (regs : List (Nat × String)) (v : PKGRound) (i : Nat)
    (L : List (Nat × Nat)) :
    ∀ (rst : AddFriendRoundState) (l : List (Option Nat)),
      (∀ p ∈ L, p.1 = i → stepSucceeds env u ltk regs v p = false) →
      rst.identitySigs = some l →
      ∃ l', (extractLoop env u ltk regs v L rst).1.identitySigs = some l' ∧
        l'[i]? = l[i]? := by
  induction L with
  | nil => intro rst l _ hl; exact ⟨l, by simp [extractLoop, hl], rfl⟩
  | cons p rest ih =>
    intro rst l hfail hl
    obtain ⟨j, key⟩ := p
    by_cases hreg : (key, u) ∈ regs
    · rcases hext : env.extract key v.round with _ | res
      · exact ⟨l, by simp [extractLoop, hreg, hext, hl], rfl⟩
      · by_cases hbls : attestVerify env
            ((lookupA v.settings key).getD ⟨0, 0⟩).blsPublicKey
            (env.validUsernameToIdentity u) ltk res.identitySig = true
        · have hstep : stepSucceeds env u ltk regs v (j, key) = true := by
            simp [stepSucceeds, hreg, hext, hbls]
          have hji : j ≠ i := by
            intro hj
            have hcontra := hfail (j, key) (List.mem_cons_self _ _) hj
            rw [hstep] at hcontra
            simp at hcontra
          obtain ⟨l', hl', hget⟩ := ih
            { rst with
              serverMasterKeys := setIdx rst.serverMasterKeys j
                ((lookupA v.settings key).getD ⟨0, 0⟩).masterPublicKey,
              serverBLSKeys := setIdx rst.serverBLSKeys j
                ((lookupA v.settings key).getD ⟨0, 0⟩).blsPublicKey,
              privateKeys := setIdx rst.privateKeys j res.privateKey,
              identitySigs := setIdx rst.identitySigs j res.identitySig }
            (l.set j (some res.identitySig))
            (fun q hq hqi => hfail q (List.mem_cons_of_mem _ hq) hqi)
            (by simp [setIdx, hl])
          refine ⟨l', ?_, ?_⟩
          · rw [extractLoop_step_success env u ltk regs v j key rest rst res
              hreg hext hbls]
            exact hl'
          · rw [hget]
            exact List.getElem?_set_ne hji
        · exact ⟨l, by simp [extractLoop, hreg, hext, hbls, hl], rfl⟩
    · exact ⟨l, by simp [extractLoop, hreg, hl], rfl⟩

/-- The round state as allocated by `extractPKGKeys` just before its
extraction loop: all four key arrays become non-nil arrays of unfilled
entries, one per configured PKG. -/
def allocArrays (rst : AddFriendRoundState) : AddFriendRoundState :=
  { rst with
    serverMasterKeys := some (List.replicate rst.config.pkgServers.length none),
    privateKeys := some (List.replicate rst.config.pkgServers.length none),
    serverBLSKeys := some (List.replicate rst.config.pkgServers.length none),
    identitySigs := some (List.replicate rst.config.pkgServers.length none) }

/-- C10: if a round's extraction runs (round known, keys not yet
populated, settings verified) but some PKG index `i` can never be
processed successfully (missing registration, `Extract` error, or BLS
attestation failure), the stored round state ends with all four key
arrays allocated (non-nil) yet the identity-signature entry at `i`
unfilled, and every subsequent `pkg` message for that round returns
immediately with no state change and no event — extraction is never
retried. -/
theorem C10_partial_extraction_poisons_round (env : Env) (st : ClientState)
    (v : PKGRound) (rst : AddFriendRoundState) (i : Nat)
    (h1 : lookupA st.addFriendRounds v.round = some rst)
    (h2 : rst.privateKeys = none)
    (h3 : env.pkgSettingsVerify v rst.config.pkgServers = true)
    (h4 : i < rst.config.pkgServers.length)
    (h5 : ∀ p ∈ rst.config.pkgServers.enum, p.1 = i →
      stepSucceeds env st.username st.longTermPublicKey st.registrations v p
        = false) :
    ∃ rst',
      lookupA (extractPKGKeys env st v).1.addFriendRounds v.round = some rst' ∧
      rst'.serverMasterKeys.isSome = true ∧
      rst'.privateKeys.isSome = true ∧
      rst'.serverBLSKeys.isSome = true ∧
      rst'.identitySigs.isSome = true ∧
      (∃ l', rst'.identitySigs = some l' ∧ l'[i]? = some none) ∧
      (∀ v2 : PKGRound, v2.round = v.round →
        extractPKGKeys env (extractPKGKeys env st v).1 v2 =
          ((extractPKGKeys env st v).1, [])) := by
  have halloc : extractPKGKeys env st v =
      ({ st with addFriendRounds := (updateA st.addFriendRounds v.round
          (extractLoop env st.username st.longTermPublicKey st.registrations v
            rst.config.pkgServers.enum (allocArrays rst)).1) },
       (extractLoop env st.username st.longTermPublicKey st.registrations v
          rst.config.pkgServers.enum (allocArrays rst)).2) := by
    simp [extractPKGKeys, h1, h2, h3, allocArrays]
  obtain ⟨hm, hp, hb, hs⟩ := extractLoop_arrays_isSome env st.username
    st.longTermPublicKey st.registrations v rst.config.pkgServers.enum
    (allocArrays rst)
  obtain ⟨l', hl', hget⟩ := extractLoop_sig_preserved env st.username
    st.longTermPublicKey st.registrations v i rst.config.pkgServers.enum
    (allocArrays rst) (List.replicate rst.config.pkgServers.length none)
    h5 (by simp [allocArrays])
  refine ⟨_, by rw [halloc]; exact lookupA_updateA _ _ _,
    by rw [hm]; simp [allocArrays], by rw [hp]; simp [allocArrays],
    by rw [hb]; simp [allocArrays], by rw [hs]; simp [allocArrays],
    ⟨l', hl', ?_⟩, fun v2 hv2 => ?_⟩
  · rw [hget]
    simp [List.getElem?_replicate, h4]
  · have hne : (extractLoop env st.username st.longTermPublicKey
        st.registrations v rst.config.pkgServers.enum
        (allocArrays rst)).1.privateKeys ≠ none := by
      rw [← Option.isSome_iff_ne_none, hp]
      simp [allocArrays]
    rw [halloc]
    simp [extractPKGKeys, hv2, lookupA_updateA, hne]

/-- An environment whose PKG `Extract` calls always fail. -/
def envExtractFail : Env := { env0 with extract := fun _ _ => none }

/-- A concrete `pkg` message for round 3. -/
def vPkg : PKGRound := { round := 3, settings := [], pkgSettingsSig := 0 }

/-- Witness for C10: with `Extract` failing, round 3 ends with
allocated but unfilled key arrays and any further `pkg` dispatch for
round 3 is a no-op. -/
theorem C10_witness :
    ∃ rst',
      lookupA (extractPKGKeys envExtractFail cs0 vPkg).1.addFriendRounds
        vPkg.round = some rst' ∧
      rst'.serverMasterKeys.isSome = true ∧
      rst'.privateKeys.isSome = true ∧
      rst'.serverBLSKeys.isSome = true ∧
      rst'.identitySigs.isSome = true ∧
      (∃ l', rst'.identitySigs = some l' ∧ l'[0]? = some none) ∧
      (∀ v2 : PKGRound, v2.round = vPkg.round →
        extractPKGKeys envExtractFail
          (extractPKGKeys envExtractFail cs0 vPkg).1 v2 =
          ((extractPKGKeys envExtractFail cs0 vPkg).1, [])) :=
  C10_partial_extraction_poisons_round envExtractFail cs0 vPkg rst0 0
    (by decide) (by decide) (by decide) (by decide) (by decide)
